import Mathlib

/-!
Verification of the pyoseo order-processing pipeline.

This file gives a shallow embedding of the order-processing tasks of the
pyoseo repository (`oseoserver/tasks.py`), of the status-change signal
handlers (`oseoserver/signals/handlers.py`) and of the small value-conversion
helpers (`oseoserver/operations/base.py`), and proves or refutes the
stated properties of the order/batch/item pipeline against that embedding.

External collaborators (the CSW catalogue interface, the order preparator
and the task queue) are modelled by environment records holding the values
they return; database loads are modelled by passing the loaded record in,
and Django `save` is modelled by returning the written record together with
the trace of status values written.
-/

namespace Pyoseo

/-- Processing states, as listed in the `status` column choices of the
`CustomizableItem` model (migration `0001_initial.py`) and in
`PROCESSING_STATES` of `models.py`. -/
inductive Status where
  | Submitted
  | Accepted
  | InProduction
  | Suspended
  | Cancelled
  | Completed
  | Failed
  | Terminated
  | Downloaded
deriving DecidableEq, Repr

/-- Terminal statuses of the lifecycle: `Completed`, `Failed`, `Terminated`,
`Cancelled`, `Downloaded`.  No pipeline-driven transition is supposed to
leave these states. -/
def isTerminal : Status → Bool
  | Status.Completed => true
  | Status.Failed => true
  | Status.Terminated => true
  | Status.Cancelled => true
  | Status.Downloaded => true
  | _ => false

/-- Exceptions raised by the task bodies: `IndexError` from an empty
catalogue result and Django's `ObjectDoesNotExist` from a failed database
lookup.  Both are re-raised by the tasks, so they surface to the caller. -/
inductive PyErr where
  | IndexError
  | ObjectDoesNotExist
deriving DecidableEq, Repr

/-- Persisted fields of an `Order` row that the pipeline touches:
`status`, `status_changed_on` and `additional_status_info`. -/
structure OrderRec where
  status : Status
  status_changed_on : Option Nat
  additional_status_info : String
deriving DecidableEq, Repr

/-- Persisted fields of an `OrderItem` row that the pipeline touches:
`status`, `status_changed_on`, `file_name` and `completed_on`. -/
structure OrderItemRec where
  status : Status
  status_changed_on : Option Nat
  file_name : String
  completed_on : Option Nat
deriving DecidableEq, Repr

/-- The `pre_save` signal handler for `Order`
(`handlers.update_status_changed_on_by_order`): stamp `status_changed_on`
with the current time when it is still unset or when `status` differs from
the `old_status` attribute recorded at `post_init`.  `old_status` is set
once, by the `post_init` handler (`get_old_status_order`), and is never
refreshed by a save, so it is passed separately and unchanged here. -/
def update_status_changed_on_by_order (order : OrderRec) (old_status : Status)
    (now : Nat) : OrderRec :=
  { order with
    status_changed_on :=
      if order.status_changed_on = none ∨ order.status ≠ old_status then some now
      else order.status_changed_on }

/-- The `pre_save` signal handler for `OrderItem`
(`handlers.update_status_changed_on_by_order_item`); same logic as the
order handler. -/
def update_status_changed_on_by_order_item (item : OrderItemRec)
    (old_status : Status) (now : Nat) : OrderItemRec :=
  { item with
    status_changed_on :=
      if item.status_changed_on = none ∨ item.status ≠ old_status then some now
      else item.status_changed_on }

/-- Run a sequence of saves on one in-memory `Order` instance: each save
first assigns the new `status` value and then runs the `pre_save`
handler.  `old_status` is the value recorded by `post_init` when the
instance was created or loaded; Django fires `post_init` only once per
instance, so it stays fixed across the whole sequence. -/
def run_order_saves (order : OrderRec) (old_status : Status) :
    List (Status × Nat) → OrderRec
  | [] => order
  | (s, t) :: rest =>
      run_order_saves
        (update_status_changed_on_by_order { order with status := s } old_status t)
        old_status rest

/-- Environment of one `process_order_item` task invocation: the rows
returned by `csw_interface.get_records([order_item_id])` (pairs of record
id and title) and the value returned by `preparator.move(customized)`
(`None` on failure, the moved path on success). -/
structure ItemTaskEnv where
  catalogue_records : List (String × String)
  move_result : Option String
deriving DecidableEq, Repr

/-- `os.path.basename`: the part of the path after the last slash. -/
def basename (p : String) : String := (p.splitOn "/").getLastD p

/-- The `process_order_item` celery task (`tasks.py`).  Control flow of the
source: query the catalogue for the item identifier and raise `IndexError`
when nothing is found; otherwise load the order item (the `item` argument,
with `old_status` fixed to the loaded `status` by `post_init`), set its
status to `InProduction` and save; run the preparator's fetch, customize
and move steps; when `move` returns a path, record `file_name` (the
basename), `completed_on` and status `Completed` and save; when `move`
returns `None`, do nothing (`else: pass`).  The returned list is the trace
of status values written by saves. -/
def process_order_item :
    ItemTaskEnv → OrderItemRec → Nat → Nat → Except PyErr (OrderItemRec × List Status)
  | ⟨[], _⟩, _, _, _ => Except.error PyErr.IndexError
  | ⟨_ :: _, mv⟩, item, t_production, t_completed =>
      let item1 := update_status_changed_on_by_order_item
        { item with status := Status.InProduction } item.status t_production
      match mv with
      | some moved =>
          let item2 := update_status_changed_on_by_order_item
            { item1 with
              file_name := basename moved
              completed_on := some t_completed
              status := Status.Completed } item.status t_completed
          Except.ok (item2, [Status.InProduction, Status.Completed])
      | none => Except.ok (item1, [Status.InProduction])

/-- The `process_normal_order` celery task (`tasks.py`).  Control flow of
the source: look the order up by primary key and re-raise
`ObjectDoesNotExist` when it is missing; otherwise set its status to
`InProduction` and save; then build one `process_batch` signature per
batch and enqueue the group asynchronously (`apply_async`), returning
without waiting.  `order_lookup` models the database lookup,
`batch_ids` the order's batches, and `batch_statuses` the statuses of
those batches in the database — the task never reads them, which the
unused argument makes explicit.  The result carries the saved order row
and the list of batch ids that were enqueued. -/
def process_normal_order (order_lookup : Option OrderRec) (batch_ids : List Nat)
    (batch_statuses : List Status) (t : Nat) :
    Except PyErr (OrderRec × List Nat) :=
  match order_lookup with
  | none => Except.error PyErr.ObjectDoesNotExist
  | some order =>
      Except.ok
        (update_status_changed_on_by_order
          { order with status := Status.InProduction } order.status t,
         batch_ids)

/-- The `process_batch` celery task (`tasks.py`).  Control flow of the
source: look the batch up by primary key and re-raise `ObjectDoesNotExist`
when it is missing; otherwise build one `process_order_item` signature per
order-item identifier and enqueue the group asynchronously, returning
without waiting.  `batch_lookup` models the lookup, holding the batch's
order items as pairs of identifier and current status.  The result carries
the items (whose statuses the task leaves untouched) and the list of
identifiers that were enqueued. -/
def process_batch (batch_lookup : Option (List (String × Status))) :
    Except PyErr (List (String × Status) × List String) :=
  match batch_lookup with
  | none => Except.error PyErr.ObjectDoesNotExist
  | some order_items => Except.ok (order_items, order_items.map Prod.fst)

/-- The `OseoOperation._c` helper (`operations/base.py`): convert `None`
to the empty string and any other value to its string form.  Python values
that are either `None` or a string are modelled as `Option String`. -/
def _c (value : Option String) : String :=
  match value with
  | none => ""
  | some s => s

/-- The `OseoOperation._n` helper (`operations/base.py`): convert the
empty string to `None` and leave every other value unchanged. -/
def _n (value : Option String) : Option String :=
  if value = some "" then none else value

/-- Appending one more save to a run of saves is the same as saving once on
the result of the run; `old_status` stays fixed throughout, since
`post_init` fires only once per instance. -/
theorem run_order_saves_append (ws : List (Status × Nat)) (o : OrderRec)
    (old_status : Status) (w : Status × Nat) :
    run_order_saves o old_status (ws ++ [w]) =
      update_status_changed_on_by_order
        { run_order_saves o old_status ws with status := w.1 } old_status w.2 := by
  induction ws generalizing o with
  | nil => rfl
  | cons hd tl ih =>
      simp only [List.cons_append, run_order_saves]
      exact ih _

/-- C1, counterexample: on an order item whose status is already terminal
(`Completed`), `process_order_item` does not return immediately with the
current outcome: it performs a status write of `InProduction`, moving the
item out of its terminal state. -/
theorem c1_counterexample :
    isTerminal Status.Completed = true ∧
    process_order_item ⟨[("a", "t")], none⟩ ⟨Status.Completed, some 0, "", none⟩ 1 2
      = Except.ok (⟨Status.InProduction, some 1, "", none⟩, [Status.InProduction]) ∧
    Status.InProduction ≠ Status.Completed :=
  ⟨rfl, rfl, by decide⟩

/-- C1, amended: `process_order_item` performs no terminal-status check.
Even when the item's status is already terminal, every non-erroring run
first writes `InProduction` (so a redelivered task is not a no-op), and the
final status is determined solely by the move result (`Completed` on
success, `InProduction` otherwise), not by the item's prior outcome. -/
theorem c1_no_early_return (env : ItemTaskEnv) (item : OrderItemRec)
    (t_production t_completed : Nat) (out : OrderItemRec × List Status)
    (hterm : isTerminal item.status = true)
    (h : process_order_item env item t_production t_completed = Except.ok out) :
    out.2.head? = some Status.InProduction ∧
    out.1.status = (match env.move_result with
                    | some _ => Status.Completed
                    | none => Status.InProduction) := by
  obtain ⟨recs, mv⟩ := env
  cases recs with
  | nil => simp [process_order_item] at h
  | cons r rs =>
      cases mv with
      | none =>
          simp only [process_order_item, Except.ok.injEq] at h
          subst h
          exact ⟨rfl, rfl⟩
      | some moved =>
          simp only [process_order_item, Except.ok.injEq] at h
          subst h
          exact ⟨rfl, rfl⟩

/-- C1, witness: the amended theorem instantiated on a `Completed` item with
a catalogue hit and a failing move. -/
theorem c1_no_early_return_witness :
    ((⟨Status.InProduction, some 1, "", none⟩, [Status.InProduction]) :
        OrderItemRec × List Status).2.head? = some Status.InProduction ∧
    ((⟨Status.InProduction, some 1, "", none⟩, [Status.InProduction]) :
        OrderItemRec × List Status).1.status = Status.InProduction :=
  c1_no_early_return ⟨[("a", "t")], none⟩ ⟨Status.Completed, some 0, "", none⟩ 1 2
    (⟨Status.InProduction, some 1, "", none⟩, [Status.InProduction]) rfl rfl

/-- C2, counterexample: two consecutive saves both writing `InProduction`
on an instance loaded with status `Submitted`.  The second save leaves the
status unchanged (`InProduction` before and after), yet `status_changed_on`
is updated again (from time 1 to time 2), because the `pre_save` handler
compares against the `old_status` recorded at `post_init`, which no save
refreshes. -/
theorem c2_counterexample :
    run_order_saves ⟨Status.Submitted, some 0, ""⟩ Status.Submitted
        [(Status.InProduction, 1)]
      = ⟨Status.InProduction, some 1, ""⟩ ∧
    run_order_saves ⟨Status.Submitted, some 0, ""⟩ Status.Submitted
        [(Status.InProduction, 1), (Status.InProduction, 2)]
      = ⟨Status.InProduction, some 2, ""⟩ := by
  exact ⟨rfl, rfl⟩

/-- C2, amended: across any sequence of saves, a save updates
`status_changed_on` if and only if the timestamp is still unset or the
status being written differs from the status recorded at instance
initialization (`old_status`, fixed at `post_init` and never refreshed by a
save) — not from the previously written status. -/
theorem c2_stamp_compares_against_initial_status (o : OrderRec)
    (old_status : Status) (ws : List (Status × Nat)) (s : Status) (t : Nat) :
    (run_order_saves o old_status (ws ++ [(s, t)])).status = s ∧
    (run_order_saves o old_status (ws ++ [(s, t)])).status_changed_on =
      (if (run_order_saves o old_status ws).status_changed_on = none ∨ s ≠ old_status
       then some t
       else (run_order_saves o old_status ws).status_changed_on) := by
  rw [run_order_saves_append]
  exact ⟨rfl, rfl⟩

/-- C3, counterexample: `process_normal_order` on an order whose status is
already terminal (`Completed`) overwrites it with `InProduction`, a
transition out of a terminal state that is not `Completed → Downloaded`. -/
theorem c3_counterexample :
    isTerminal Status.Completed = true ∧
    process_normal_order (some ⟨Status.Completed, some 0, ""⟩) [1] [Status.Completed] 5
      = Except.ok (⟨Status.InProduction, some 5, ""⟩, [1]) ∧
    Status.InProduction ≠ Status.Downloaded :=
  ⟨rfl, rfl, by decide⟩

/-- C3, amended: the pipeline has no terminal-status guard at all.
`process_normal_order` writes `InProduction` over any prior order status,
terminal included, and every non-erroring `process_order_item` run writes
`InProduction` on the item regardless of its prior (possibly terminal)
status. -/
theorem c3_no_terminal_guard :
    (∀ (o : OrderRec) (batch_ids : List Nat) (batch_statuses : List Status) (t : Nat),
      isTerminal o.status = true →
      ∃ o1, process_normal_order (some o) batch_ids batch_statuses t
              = Except.ok (o1, batch_ids) ∧
            o1.status = Status.InProduction) ∧
    (∀ (env : ItemTaskEnv) (item : OrderItemRec) (t1 t2 : Nat)
        (out : OrderItemRec × List Status),
      isTerminal item.status = true →
      process_order_item env item t1 t2 = Except.ok out →
      Status.InProduction ∈ out.2) := by
  constructor
  · intro o batch_ids batch_statuses t _
    exact ⟨_, rfl, rfl⟩
  · intro env item t1 t2 out _ h
    obtain ⟨recs, mv⟩ := env
    cases recs with
    | nil => simp [process_order_item] at h
    | cons r rs =>
        cases mv with
        | none =>
            simp only [process_order_item, Except.ok.injEq] at h
            subst h
            exact List.mem_singleton.mpr rfl
        | some moved =>
            simp only [process_order_item, Except.ok.injEq] at h
            subst h
            exact List.mem_cons_self _ _

/-- C3, witness: the amended theorem instantiated on a `Completed` order and
a `Completed` item. -/
theorem c3_no_terminal_guard_witness :
    (∃ o1, process_normal_order (some ⟨Status.Completed, some 0, ""⟩) [1]
             [Status.Completed] 5 = Except.ok (o1, [1]) ∧
           o1.status = Status.InProduction) ∧
    Status.InProduction ∈
      ((⟨Status.InProduction, some 1, "", none⟩, [Status.InProduction]) :
          OrderItemRec × List Status).2 :=
  ⟨c3_no_terminal_guard.1 ⟨Status.Completed, some 0, ""⟩ [1] [Status.Completed] 5 rfl,
   c3_no_terminal_guard.2 ⟨[("a", "t")], none⟩ ⟨Status.Completed, some 0, "", none⟩ 1 2
     (⟨Status.InProduction, some 1, "", none⟩, [Status.InProduction]) rfl rfl⟩

/-- C4, counterexample: `process_batch` on a batch with one `Submitted`
item returns immediately with the item still `Submitted` — a non-terminal
state — so it neither waited for the item to finish nor produced an
aggregate status; it only returns the list of enqueued identifiers. -/
theorem c4_counterexample :
    process_batch (some [("a", Status.Submitted)])
      = Except.ok ([("a", Status.Submitted)], ["a"]) ∧
    isTerminal Status.Submitted = false :=
  ⟨rfl, rfl⟩

/-- C4, amended: `process_batch` only enqueues `process_order_item`
asynchronously for each item identifier and returns at once: the items'
statuses are exactly as loaded (no fan-in barrier is executed) and no
aggregate batch status is computed or returned. -/
theorem c4_enqueue_only (order_items : List (String × Status)) :
    process_batch (some order_items)
      = Except.ok (order_items, order_items.map Prod.fst) :=
  rfl

/-- C5, counterexample: an order whose batches are all `Failed`.
`process_normal_order` still writes `InProduction` (never `Failed`) and
leaves `additional_status_info` untouched: the batch outcomes are never
consulted. -/
theorem c5_counterexample :
    process_normal_order (some ⟨Status.Submitted, some 0, ""⟩) [1, 2]
        [Status.Failed, Status.Failed] 3
      = Except.ok (⟨Status.InProduction, some 3, ""⟩, [1, 2]) ∧
    Status.InProduction ≠ Status.Failed :=
  ⟨rfl, by decide⟩

/-- C5, amended: `process_normal_order` performs no order-status
aggregation: whatever the batch statuses are, it writes `InProduction`,
leaves `additional_status_info` unchanged, enqueues the batches and
returns; its result does not depend on the batch outcomes at all. -/
theorem c5_no_aggregation (o : OrderRec) (batch_ids : List Nat)
    (batch_statuses other_statuses : List Status) (t : Nat) :
    ∃ o1,
      process_normal_order (some o) batch_ids batch_statuses t
        = Except.ok (o1, batch_ids) ∧
      o1.status = Status.InProduction ∧
      o1.additional_status_info = o.additional_status_info ∧
      process_normal_order (some o) batch_ids other_statuses t
        = process_normal_order (some o) batch_ids batch_statuses t :=
  ⟨_, rfl, rfl, rfl, rfl⟩

/-- C6, counterexample: the catalogue resolves but the move step fails
(`move` returns `None`).  `process_order_item` returns successfully having
written only `InProduction`: no `Failed` status and no reason is ever
recorded — the failure is silently swallowed. -/
theorem c6_counterexample :
    process_order_item ⟨[("a", "t")], none⟩ ⟨Status.Submitted, none, "", none⟩ 1 2
      = Except.ok (⟨Status.InProduction, some 1, "", none⟩, [Status.InProduction]) ∧
    Status.Failed ∉ ([Status.InProduction] : List Status) :=
  ⟨rfl, by decide⟩

/-- C6, amended: when the move (place) step returns `None`,
`process_order_item` does nothing (`else: pass` in the source): the item is
left in `InProduction`, `file_name` and `completed_on` are untouched, no
`Failed` write occurs, and the task finishes without error. -/
theorem c6_silent_swallow (record : String × String)
    (records : List (String × String)) (item : OrderItemRec) (t1 t2 : Nat) :
    ∃ item1,
      process_order_item ⟨record :: records, none⟩ item t1 t2
        = Except.ok (item1, [Status.InProduction]) ∧
      item1.status = Status.InProduction ∧
      item1.file_name = item.file_name ∧
      item1.completed_on = item.completed_on ∧
      Status.Failed ∉ ([Status.InProduction] : List Status) :=
  ⟨_, rfl, rfl, rfl, rfl, by decide⟩

/-- C7, counterexample: the catalogue returns no record for the item's
identifier.  `process_order_item` raises `IndexError` without loading the
item or writing any status — in particular the item is never set to
`Failed` (its status stays whatever it was, here `Submitted`). -/
theorem c7_counterexample :
    process_order_item ⟨[], none⟩ ⟨Status.Submitted, none, "", none⟩ 1 2
      = Except.error PyErr.IndexError ∧
    Status.Submitted ≠ Status.Failed :=
  ⟨rfl, by decide⟩

/-- C7, amended: on catalogue-resolution failure `process_order_item` logs
and re-raises the `IndexError`; no status write happens at all (no record
is saved), so the item is never marked `Failed`; no retry is attempted. -/
theorem c7_resolution_failure_raises (move_result : Option String)
    (item : OrderItemRec) (t1 t2 : Nat) :
    process_order_item ⟨[], move_result⟩ item t1 t2
      = Except.error PyErr.IndexError :=
  rfl

/-- C8 (confirmed): whenever the move (place) step succeeds, returning a
path, `process_order_item` records the path's basename as the item's
`file_name`, stamps `completed_on`, and writes status `Completed` (after
the initial `InProduction` write). -/
theorem c8_place_success_completes (record : String × String)
    (records : List (String × String)) (moved : String) (item : OrderItemRec)
    (t1 t2 : Nat) :
    ∃ item2,
      process_order_item ⟨record :: records, some moved⟩ item t1 t2
        = Except.ok (item2, [Status.InProduction, Status.Completed]) ∧
      item2.status = Status.Completed ∧
      item2.file_name = basename moved ∧
      item2.completed_on = some t2 :=
  ⟨_, rfl, rfl, rfl, rfl⟩

/-- C9 (confirmed): when the order lookup fails, `process_normal_order`
re-raises `ObjectDoesNotExist` to the caller; the error return carries no
saved order row and no enqueued batch, so no status write and no batch
fan-out occur, and no retry is attempted. -/
theorem c9_missing_order_raises (batch_ids : List Nat)
    (batch_statuses : List Status) (t : Nat) :
    process_normal_order none batch_ids batch_statuses t
      = Except.error PyErr.ObjectDoesNotExist :=
  rfl

/-- C10 (confirmed): `_c` and `_n` form a round trip: `_c (_n s) = s` for
every string `s`, and `_n (_c v) = v` for every value `v` that is `None`
or a non-empty string. -/
theorem c10_roundtrip :
    (∀ s : String, _c (_n (some s)) = s) ∧
    (∀ v : Option String,
      (v = none ∨ ∃ s, v = some s ∧ s ≠ "") → _n (some (_c v)) = v) := by
  constructor
  · intro s
    by_cases h : s = ""
    · subst h; rfl
    · simp [_n, _c, h]
  · intro v hv
    rcases hv with h | ⟨s, rfl, hs⟩
    · subst h; rfl
    · simp [_n, _c, hs]

/-- C10, witness: the round trip evaluated at the string `"abc"` and the
value `None`. -/
theorem c10_roundtrip_witness :
    _c (_n (some "abc")) = "abc" ∧ _n (some (_c none)) = none :=
  ⟨c10_roundtrip.1 "abc", c10_roundtrip.2 none (Or.inl rfl)⟩

end Pyoseo
